import Mathlib

set_option autoImplicit false

/-!
Shallow embedding of the `openpid-docgen` crate (`src/lib.rs`): the proportional
diagram-layout algorithm `generate_packet_diagram`, the per-payload documentation
assembler `Book::document_payload`, and the pure write set of `document`.
Strings are modelled byte-for-byte after the `formatdoc!` templates of the source
(indoc semantics: first empty line stripped, common indentation removed).
-/

namespace OpenPidDocgen

/-- Caption text of one diagram block, the `sizestr` match inside
`generate_packet_diagram`: the string `<n> bits` when the width is present and
`Variable` when it is absent. -/
def sizestr : Option Nat → String
  | some size => toString size ++ " bits"
  | none => "Variable"

/-- Emitted visual width of one diagram block, the `scaledsize` match inside
`generate_packet_diagram`: `size * scale` for a sized entry, `16 * scale` for an
entry without a width. -/
def scaledsize (size : Option Nat) (scale : Nat) : Nat :=
  match size with
  | some size => size * scale
  | none => 16 * scale

/-- Total bit width as computed by `generate_packet_diagram`: a left fold with
initial accumulator `0` that adds a present width to the accumulator and resets
the accumulator to `0` at an entry whose width is absent (`else { 0 }` branch of
the fold in the source). -/
def total_bit_width (contents : List (String × Option Nat)) : Nat :=
  contents.foldl
    (fun bits content =>
      match content.2 with
      | some c => bits + c
      | none => 0)
    0

/-- One diagram block as pushed onto `stuffing` by the emission loop of
`generate_packet_diagram`: enumeration index, size caption, markdown label and
scaled visual width. -/
structure DiagramBlock where
  idx : Nat
  sizestr : String
  label : String
  scaledsize : Nat
deriving DecidableEq

/-- Textual rendering of one diagram block, the per-entry `formatdoc!` body that
the loop appends to `stuffing`. -/
def render_block (b : DiagramBlock) : String :=
  toString b.idx ++ ": " ++ b.sizestr ++ "\n" ++ toString b.idx ++
    ": \x7b\n  explanation: |md " ++ b.label ++
    " |\n  explanation.style.font-size: 55\n  width:" ++ toString b.scaledsize ++
    "\n\n  style.font-size: 40\n\x7d\n"

/-- Blocks produced by the emission loop of `generate_packet_diagram` at a given
scale: one block per entry of `contents`, in enumeration order. -/
def blocksOf (contents : List (String × Option Nat)) (scale : Nat) :
    List DiagramBlock :=
  contents.enum.map fun p => ⟨p.1, sizestr p.2.2, p.2.1, scaledsize p.2.2 scale⟩

/-- Fixed d2 configuration preamble of every nonempty diagram description. -/
def diagram_preamble : String :=
  "\nvars: \x7b\n  d2-config: \x7b\n    layout-engine: elk\n    theme-id: 0\n  \x7d\n\x7d\n\n\n"

/-- Named container of the diagram description wrapping the concatenated block
renderings (single row, zero gap, title font size 50). -/
def diagram_container (name : String) (stuffing : String) : String :=
  diagram_preamble ++ name ++
    " \x7b\n    style.font-size: 50\n    grid-rows: 1\n    grid-gap: 0\n    " ++
    stuffing ++ "\n\x7d\n"

/-- Shallow embedding of `generate_packet_diagram` from `src/lib.rs`: returns the
empty string when the computed total bit width is zero, otherwise renders one
block per entry at scale `2000 / total` inside the named container. -/
def generate_packet_diagram (name : String)
    (contents : List (String × Option Nat)) : String :=
  let total := total_bit_width contents
  if total = 0 then ""
  else
    diagram_container name
      (String.join ((blocksOf contents (2000 / total)).map render_block))

/-- Blocks present in the diagram description produced by
`generate_packet_diagram`: none when the computed total bit width is zero,
otherwise the blocks of the emission loop at scale `2000 / total`. -/
def diagramBlocks (contents : List (String × Option Nat)) : List DiagramBlock :=
  if total_bit_width contents = 0 then []
  else blocksOf contents (2000 / total_bit_width contents)

/-- Modelled from the spec: the datatype tag of a segment comes from the external
`openpid` crate, which is not part of this repository; the docgen code only ever
renders it through the debug formatter (`{datatype:?}`), so it is modelled as an
opaque tag carrying its debug rendering. -/
structure DataType where
  dbg : String
deriving DecidableEq

/-- Modelled from the spec: the termination rule of an unsized segment comes from
the external `openpid` crate; the docgen code only renders it through the debug
formatter (`format!("\x7b:?\x7d", i)`), so it is modelled as an opaque value
carrying its debug rendering. -/
structure TerminationRule where
  dbg : String
deriving DecidableEq

/-- PacketSegment of the `openpid` data model, with exactly the fields matched by
`document_payload` in `src/lib.rs`: `Sized` (name, bit width, datatype, optional
description), `Unsized` (name, optional termination rule, datatype, optional
description) and `Struct` (name, referenced struct name). -/
inductive PacketSegment where
  | Sized (name : String) (bits : Nat) (datatype : DataType)
      (description : Option String)
  | Unsized (name : String) (rule : Option TerminationRule)
      (datatype : DataType) (description : Option String)
  | Struct (name : String) (struct_name : String)
deriving DecidableEq

/-- Modelled from the spec: `PacketSegment::get_name` lives in the external
`openpid` crate; per the spec every variant yields its own `name` field as the
display name. -/
def PacketSegment.get_name : PacketSegment → String
  | .Sized name _ _ _ => name
  | .Unsized name _ _ _ => name
  | .Struct name _ => name

/-- Payload of the `openpid` data model as consumed by `document_payload`: a
free-text description, the opaque metadata value (only ever rendered by the
debug formatter, so modelled by its debug rendering), and the ordered segments. -/
structure Payload where
  description : String
  metadata_dbg : String
  segments : List PacketSegment
deriving DecidableEq

/-- Direction enum from `src/lib.rs`. -/
inductive Direction where
  | Tx
  | Rx
deriving DecidableEq

/-- Per-segment description text, the `desc` match inside `document_payload`
(each `formatdoc!` arm rendered with indoc semantics). -/
def segment_desc : PacketSegment → String
  | .Sized _ bits datatype description =>
      "*" ++ toString bits ++ "* bit-wide " ++ datatype.dbg ++ "\n" ++
        description.getD "" ++ "\n"
  | .Unsized _ rule datatype description =>
      datatype.dbg ++ " with " ++
        (match rule with
         | some t => t.dbg
         | none => "no additional termination") ++ "\n" ++
        description.getD "" ++ "\n"
  | .Struct _ struct_name =>
      "See struct [" ++ struct_name ++ "](" ++ struct_name ++ ")"

/-- Segments section of the payload fragment: one `### <name>` heading plus the
per-segment description for each segment, joined with a newline (the
`map ... join("\n")` pipeline of `document_payload`). -/
def segments_text (segments : List PacketSegment) : String :=
  String.intercalate "\n"
    (segments.map fun segment =>
      "### " ++ segment.get_name ++ "\n" ++ segment_desc segment)

/-- Diagram input derived from the payload segments by `document_payload`:
label with datatype annotation and `Some(bits)` for sized segments, label with
datatype annotation and `None` for unsized segments, and for struct segments the
bare name when it equals the referenced struct name, otherwise the name
annotated with the struct name, with `None` width. -/
def diagram_contents (segments : List PacketSegment) :
    List (String × Option Nat) :=
  segments.map fun segment =>
    match segment with
    | .Sized name bits datatype _ =>
        (name ++ " (" ++ datatype.dbg ++ ")", some bits)
    | .Unsized name _ datatype _ =>
        (name ++ " (" ++ datatype.dbg ++ ")", none)
    | .Struct name struct_name =>
        if name = struct_name then (name, none)
        else (name ++ " (" ++ struct_name ++ ")", none)

/-- Diagram description handed to the external renderer for one payload (the
`d2` value of `document_payload`). It does not depend on the direction. -/
def payload_d2 (payload : Payload) (payload_name : String) : String :=
  generate_packet_diagram payload_name (diagram_contents payload.segments)

/-- Path component selected by the direction match inside `document_payload`. -/
def direction_component : Direction → String
  | .Tx => "tx"
  | .Rx => "rx"

/-- Relative output path of the rendered image,
`<direction-component>/<payload-name>.png`. -/
def diagram_path_relative (direction : Direction) (payload_name : String) :
    String :=
  direction_component direction ++ "/" ++ payload_name ++ ".png"

/-- Diagram description and target path passed to `render_diagram` by
`document_payload` (path taken relative to the payloads directory). -/
def rendered_diagram (payload : Payload) (payload_name : String)
    (direction : Direction) : String × String :=
  (payload_d2 payload payload_name, diagram_path_relative direction payload_name)

/-- Markdown image reference embedded in the payload fragment. -/
def image_ref (payload_name path_rel : String) : String :=
  "![Packet Segment Description for " ++ payload_name ++ "](" ++ path_rel ++ ")"

/-- Documentation fragment template returned by `document_payload`, as a function
of the payload, its name and the already-computed relative image path (the final
`formatdoc!` of the function, rendered with indoc semantics). -/
def payload_fragment (payload : Payload) (payload_name : String)
    (path_rel : String) : String :=
  "# " ++ payload_name ++ "\n" ++ payload.description ++
    "\n\n## Payload Segments\n" ++ image_ref payload_name path_rel ++ "\n" ++
    segments_text payload.segments ++ "\n\n\n## Hard-coded Values\n" ++
    payload.metadata_dbg ++ "\n\n\n"

/-- Shallow embedding of `Book::document_payload` (its returned markdown
fragment; the rendering side effect is captured by `rendered_diagram`). -/
def document_payload (payload : Payload) (payload_name : String)
    (direction : Direction) : String :=
  payload_fragment payload payload_name
    (diagram_path_relative direction payload_name)

/-- DeviceInfo of the `openpid` data model as consumed by `document`. -/
structure DeviceInfo where
  name : String
  description : String
deriving DecidableEq

/-- Root OpenPID spec as consumed by `document`: version strings (only ever
rendered via the debug formatter, so modelled by their debug renderings), device
info, and the ordered tx and rx payload maps as association lists. -/
structure OpenPID where
  openpid_version_dbg : String
  doc_version_dbg : String
  device_info : DeviceInfo
  payloads_tx : List (String × Payload)
  payloads_rx : List (String × Payload)
deriving DecidableEq

/-- Concatenated tx payload fragments accumulated by the first loop of
`document`. -/
def tx_payloads (pid : OpenPID) : String :=
  pid.payloads_tx.foldl
    (fun acc p => acc ++ document_payload p.2 p.1 Direction.Tx) ""

/-- Table-of-contents link line pushed per tx payload by `document`. -/
def tx_link_line (payload_name : String) : String :=
  "\t- [" ++ payload_name ++ "](payloads/tx.md#" ++ payload_name ++ ")\n"

/-- Accumulated tx link list built (but never written) by `document`. -/
def tx_payloads_links (pid : OpenPID) : String :=
  pid.payloads_tx.foldl (fun acc p => acc ++ tx_link_line p.1) ""

/-- Concatenated rx payload fragments accumulated by the second loop of
`document`. -/
def rx_payloads (pid : OpenPID) : String :=
  pid.payloads_rx.foldl
    (fun acc p => acc ++ document_payload p.2 p.1 Direction.Rx) ""

/-- Table-of-contents link line pushed per rx payload by `document`. -/
def rx_link_line (payload_name : String) : String :=
  "\t- [" ++ payload_name ++ "](payloads/rx.md#" ++ payload_name ++ ")\n"

/-- Accumulated rx link list built (but never written) by `document`. -/
def rx_payloads_links (pid : OpenPID) : String :=
  pid.payloads_rx.foldl (fun acc p => acc ++ rx_link_line p.1) ""

/-- SUMMARY.md content written by `document`: a `formatdoc!` template with no
interpolations, hence a constant. -/
def summary : String :=
  "# Contents\n[Sending Packets](index.md)\n\n# Packet Format\n- [Sent Packets](protocol/tx.md)\n- [Received Packets](protocol/rx.md)\n\n# Payloads\n- [Common Payload Structs](structs/index.md)\n- [To Device](payloads/tx.md)\n- [From Device](payloads/rx.md)\n\n# Transactions\n[What is a transaction?]()\n- [TODO]()\n\n----------\n[About this Document](about.md)\n"

/-- about.md content written by `document`, carrying the two version strings. -/
def about (pid : OpenPID) : String :=
  "# About this Document\n\nThis document was generated by [OpenPID](TODO) vTODO on TODO.\n\nThe document it was generated from was written in OpenPID " ++
    pid.openpid_version_dbg ++
    "\n\nThe document it was generated from\x27s version was " ++
    pid.doc_version_dbg ++ "\n\n"

/-- payloads/tx.md content written by `document`. -/
def tx_payloads_index (pid : OpenPID) : String :=
  "# Sendable Payloads\nA payload is encapsulated by the [Packet Format](TODO) before it is sent. \n\nSendable payloads are \"sendable\" from your controller to " ++
    pid.device_info.name ++ ".\n\n" ++ tx_payloads pid ++ "\n\n"

/-- payloads/rx.md content written by `document`. -/
def rx_payloads_index (pid : OpenPID) : String :=
  "# Receivable Payloads\nA payload is encapsulated by the [Packet Format](TODO) before it arries at your controller. \n\nRecievable payloads are \"recieved\" by your controller from " ++
    pid.device_info.name ++ ".\n\n" ++ rx_payloads pid ++ "\n"

/-- Markdown files written by `document` itself (path relative to the output
root, content), in write order: SUMMARY.md, about.md, payloads/tx.md,
payloads/rx.md. Directory creation and the external mdbook builder are out of
scope. -/
def document_writes (pid : OpenPID) : List (String × String) :=
  [("src/SUMMARY.md", summary),
   ("src/about.md", about pid),
   ("src/payloads/tx.md", tx_payloads_index pid),
   ("src/payloads/rx.md", rx_payloads_index pid)]

/-- First character of a string, used to separate written contents from the
never-written link accumulators. -/
def strHead (s : String) : Option Char :=
  s.data.head?

/-- Example payload with a sized and an unsized segment, used by witnesses. -/
def examplePayload : Payload :=
  { description := "Example payload"
    metadata_dbg := "\x7b\x7d"
    segments :=
      [PacketSegment.Sized "opcode" 8 ⟨"U8"⟩ none,
       PacketSegment.Unsized "data" none ⟨"Bytes"⟩ (some "raw")] }

/-- Payload whose diagram input has total bit width zero (single unsized
segment), used to exhibit the empty-diagram case. -/
def zero_total_payload : Payload :=
  { description := "d"
    metadata_dbg := "m"
    segments := [PacketSegment.Unsized "data" none ⟨"Bytes"⟩ none] }

/-- Example OpenPID spec with one tx payload, used by witnesses. -/
def examplePID : OpenPID :=
  { openpid_version_dbg := "\"0.1\""
    doc_version_dbg := "\"1\""
    device_info := { name := "Dev", description := "A device" }
    payloads_tx := [("Ping", examplePayload)]
    payloads_rx := [] }

theorem total_bit_width_all_none (contents : List (String × Option Nat))
    (h : ∀ e ∈ contents, e.2 = none) : total_bit_width contents = 0 := by
  induction contents with
  | nil => rfl
  | cons x l ih =>
    have hx : x.2 = none := h x (by simp)
    simp only [total_bit_width, List.foldl_cons, hx]
    exact ih fun e he => h e (by simp [he])

theorem diagramBlocks_of_ne (contents : List (String × Option Nat))
    (h : total_bit_width contents ≠ 0) :
    diagramBlocks contents =
      blocksOf contents (2000 / total_bit_width contents) := by
  simp [diagramBlocks, h]

/-- Claim C1: the code computes the total at the input
`[("A", 8), ("B", 8), ("C", None), ("D", 16)]` as `16`, not as the sum `32` of
all present widths: the fold resets its accumulator to `0` at the width-less
entry `"C"`, so the scale is `125` and the emitted widths are `1000`, `1000`,
`2000` and `2000` instead of the claimed `496`, `496`, `992` and `992`. -/
theorem total_bit_width_reset_eval :
    total_bit_width [("A", some 8), ("B", some 8), ("C", none), ("D", some 16)]
      = 16 ∧
    total_bit_width [("A", some 8), ("B", some 8), ("C", none), ("D", some 16)]
      ≠ 32 ∧
    2000 /
      total_bit_width [("A", some 8), ("B", some 8), ("C", none), ("D", some 16)]
      = 125 ∧
    diagramBlocks [("A", some 8), ("B", some 8), ("C", none), ("D", some 16)] =
      [⟨0, "8 bits", "A", 1000⟩, ⟨1, "8 bits", "B", 1000⟩,
       ⟨2, "Variable", "C", 2000⟩, ⟨3, "16 bits", "D", 2000⟩] := by
  decide

/-- Claim C2 (counterexample): at the input `[("A", None)]` the diagram
description is the empty string and contains no block at all, while the input
has one entry, so the output does not contain one block per input entry. -/
theorem diagram_no_blocks_counterexample :
    generate_packet_diagram "P" [("A", none)] = "" ∧
    diagramBlocks [("A", none)] = [] ∧
    [("A", (none : Option Nat))].length = 1 := by
  decide

/-- Claim C2 (amended): whenever the computed total bit width is nonzero, the
diagram description contains exactly one block per input entry and block order
equals input order: the i-th block carries index `i` and the label, caption and
scaled width derived from the i-th entry, and the description is the container
wrapping exactly those blocks in order. -/
theorem diagram_blocks_count_and_order (name : String)
    (contents : List (String × Option Nat))
    (h : total_bit_width contents ≠ 0) :
    (diagramBlocks contents).length = contents.length ∧
    (∀ i : Nat, (diagramBlocks contents)[i]? =
      (contents[i]?).map fun c =>
        DiagramBlock.mk i (sizestr c.2) c.1
          (scaledsize c.2 (2000 / total_bit_width contents))) ∧
    generate_packet_diagram name contents =
      diagram_container name
        (String.join ((diagramBlocks contents).map render_block)) := by
  refine ⟨?_, ?_, ?_⟩
  · rw [diagramBlocks_of_ne contents h]
    simp [blocksOf, List.enum_length]
  · intro i
    rw [diagramBlocks_of_ne contents h]
    simp only [blocksOf, List.getElem?_map, List.getElem?_enum, Option.map_map]
    cases contents[i]? with
    | none => rfl
    | some c => rfl
  · rw [diagramBlocks_of_ne contents h]
    simp [generate_packet_diagram, h]

/-- Claim C2 (witness): the amended statement evaluated at the one-entry input
`[("A", 8)]`, whose computed total is `8`. -/
theorem diagram_blocks_count_and_order_witness :
    total_bit_width [("A", some 8)] ≠ 0 ∧
    ((diagramBlocks [("A", some 8)]).length =
        [("A", (some 8 : Option Nat))].length ∧
      (∀ i : Nat, (diagramBlocks [("A", some 8)])[i]? =
        ([("A", (some 8 : Option Nat))][i]?).map fun c =>
          DiagramBlock.mk i (sizestr c.2) c.1
            (scaledsize c.2 (2000 / total_bit_width [("A", some 8)]))) ∧
      generate_packet_diagram "P" [("A", some 8)] =
        diagram_container "P"
          (String.join ((diagramBlocks [("A", some 8)]).map render_block))) :=
  ⟨by decide, diagram_blocks_count_and_order "P" [("A", some 8)] (by decide)⟩

/-- Claim C3: when no entry of the input carries a present width, the computed
total bit width is zero and `generate_packet_diagram` returns exactly the empty
string rather than failing. -/
theorem generate_packet_diagram_all_none_empty (name : String)
    (contents : List (String × Option Nat))
    (h : ∀ e ∈ contents, e.2 = none) :
    generate_packet_diagram name contents = "" := by
  simp [generate_packet_diagram, total_bit_width_all_none contents h]

/-- Claim C3 (witness): the all-width-less input `[("A", None), ("B", None)]`
yields the empty string. -/
theorem generate_packet_diagram_all_none_empty_witness :
    (∀ e ∈ [("A", (none : Option Nat)), ("B", none)], e.2 = none) ∧
    generate_packet_diagram "P" [("A", none), ("B", none)] = "" :=
  ⟨by decide,
   generate_packet_diagram_all_none_empty "P" [("A", none), ("B", none)]
     (by decide)⟩

/-- Claim C4: appending a width-less entry resets the computed total to zero
regardless of the earlier sized entries, and in particular the input
`[("A", 8), ("B", None)]`, which contains an entry of positive width, yields the
empty string. -/
theorem generate_packet_diagram_trailing_none_empty :
    generate_packet_diagram "P" [("A", some 8), ("B", none)] = "" ∧
    ∀ (contents : List (String × Option Nat)) (lbl : String),
      total_bit_width (contents ++ [(lbl, none)]) = 0 :=
  ⟨by decide,
   fun contents lbl => by simp [total_bit_width, List.foldl_append]⟩

/-- Claim C5: every block of the diagram description carries the size caption of
its entry: `<n> bits` when the entry's width `n` is present and `Variable` when
it is absent. -/
theorem diagram_block_caption (contents : List (String × Option Nat))
    (h : total_bit_width contents ≠ 0) :
    ∀ i : Nat,
      ((diagramBlocks contents)[i]?).map DiagramBlock.sizestr =
        (contents[i]?).map fun c =>
          match c.2 with
          | some n => toString n ++ " bits"
          | none => "Variable" := by
  intro i
  rw [diagramBlocks_of_ne contents h]
  simp only [blocksOf, List.getElem?_map, List.getElem?_enum, Option.map_map]
  cases contents[i]? with
  | none => rfl
  | some c => cases c.2 <;> rfl

/-- Claim C5 (witness): at the input `[("B", None), ("A", 8)]` the two emitted
blocks carry the captions `Variable` and `8 bits`. -/
theorem diagram_block_caption_witness :
    total_bit_width [("B", none), ("A", some 8)] ≠ 0 ∧
    ∀ i : Nat,
      ((diagramBlocks [("B", none), ("A", some 8)])[i]?).map
          DiagramBlock.sizestr =
        ([("B", (none : Option Nat)), ("A", some 8)][i]?).map fun c =>
          match c.2 with
          | some n => toString n ++ " bits"
          | none => "Variable" :=
  ⟨by decide, diagram_block_caption [("B", none), ("A", some 8)] (by decide)⟩

/-- Claim C6: the per-segment description text is variant-dependent. A sized
segment yields its bit width (in markdown emphasis) followed by ` bit-wide ` and
the datatype, then its free-text description (empty when absent); an unsized
segment yields the datatype, ` with ` and the termination text, which defaults
to `no additional termination` when the rule is absent; a struct segment yields
a cross-reference line naming the referenced struct, produced for any struct
name without consulting any struct table. -/
theorem segment_desc_by_variant (nm : String) (bits : Nat) (dt : DataType)
    (dsc : Option String) (t : TerminationRule) (sn : String) :
    segments_text [PacketSegment.Sized nm bits dt dsc] =
      "### " ++ nm ++ "\n" ++
        ("*" ++ toString bits ++ "* bit-wide " ++ dt.dbg ++ "\n" ++
          dsc.getD "" ++ "\n") ∧
    segments_text [PacketSegment.Unsized nm (some t) dt dsc] =
      "### " ++ nm ++ "\n" ++
        (dt.dbg ++ " with " ++ t.dbg ++ "\n" ++ dsc.getD "" ++ "\n") ∧
    segments_text [PacketSegment.Unsized nm none dt dsc] =
      "### " ++ nm ++ "\n" ++
        (dt.dbg ++ " with " ++ "no additional termination" ++ "\n" ++
          dsc.getD "" ++ "\n") ∧
    segments_text [PacketSegment.Struct nm sn] =
      "### " ++ nm ++ "\n" ++
        ("See struct [" ++ sn ++ "](" ++ sn ++ ")") :=
  ⟨rfl, rfl, rfl, rfl⟩

/-- Claim C7: `generate_packet_diagram` and `document_payload` are deterministic
functions of their arguments; equal inputs give byte-identical outputs. -/
theorem docgen_deterministic (n₁ n₂ : String)
    (c₁ c₂ : List (String × Option Nat)) (p₁ p₂ : Payload)
    (pn₁ pn₂ : String) (d₁ d₂ : Direction)
    (hn : n₁ = n₂) (hc : c₁ = c₂) (hp : p₁ = p₂) (hpn : pn₁ = pn₂)
    (hd : d₁ = d₂) :
    generate_packet_diagram n₁ c₁ = generate_packet_diagram n₂ c₂ ∧
    document_payload p₁ pn₁ d₁ = document_payload p₂ pn₂ d₂ := by
  subst hn hc hp hpn hd
  exact ⟨rfl, rfl⟩

/-- Claim C7 (witness): determinism instantiated at concrete inputs. -/
theorem docgen_deterministic_witness :
    generate_packet_diagram "P" [("A", some 8)] =
      generate_packet_diagram "P" [("A", some 8)] ∧
    document_payload examplePayload "Ping" Direction.Tx =
      document_payload examplePayload "Ping" Direction.Tx :=
  docgen_deterministic "P" "P" [("A", some 8)] [("A", some 8)]
    examplePayload examplePayload "Ping" "Ping" Direction.Tx Direction.Tx
    rfl rfl rfl rfl rfl

/-- Claim C8: the direction selects only the output sub-path of the rendered
image, `tx/<payload-name>.png` for outbound and `rx/<payload-name>.png` for
inbound; the diagram description handed to the renderer is the same for both
directions, and the documentation fragment depends on the direction only through
that relative path. -/
theorem direction_selects_subpath_only (p : Payload) (n : String) :
    (rendered_diagram p n Direction.Tx).2 = "tx/" ++ n ++ ".png" ∧
    (rendered_diagram p n Direction.Rx).2 = "rx/" ++ n ++ ".png" ∧
    (rendered_diagram p n Direction.Tx).1 =
      (rendered_diagram p n Direction.Rx).1 ∧
    document_payload p n Direction.Tx =
      payload_fragment p n ("tx/" ++ n ++ ".png") ∧
    document_payload p n Direction.Rx =
      payload_fragment p n ("rx/" ++ n ++ ".png") := by
  have htx : ("tx" ++ "/" : String) = "tx/" := rfl
  have hrx : ("rx" ++ "/" : String) = "rx/" := rfl
  refine ⟨?_, ?_, rfl, ?_, ?_⟩
  · simp only [rendered_diagram, diagram_path_relative, direction_component]
    rw [htx]
  · simp only [rendered_diagram, diagram_path_relative, direction_component]
    rw [hrx]
  · simp only [document_payload, diagram_path_relative, direction_component]
    rw [htx]
  · simp only [document_payload, diagram_path_relative, direction_component]
    rw [hrx]

/-- Claim C9: the fragment returned by `document_payload` contains the image
reference for the payload unconditionally; in particular for a payload whose
diagram input has total bit width zero, the diagram description handed to the
renderer is the empty string while the fragment still references the image. -/
theorem fragment_contains_image_ref :
    (∀ (p : Payload) (n : String) (d : Direction),
      ∃ s t : String, document_payload p n d =
        s ++ image_ref n (diagram_path_relative d n) ++ t) ∧
    payload_d2 zero_total_payload "P" = "" ∧
    (∃ s t : String, document_payload zero_total_payload "P" Direction.Tx =
      s ++ image_ref "P" (diagram_path_relative Direction.Tx "P") ++ t) := by
  have key : ∀ (p : Payload) (n : String) (d : Direction),
      ∃ s t : String, document_payload p n d =
        s ++ image_ref n (diagram_path_relative d n) ++ t := by
    intro p n d
    refine ⟨"# " ++ n ++ "\n" ++ p.description ++ "\n\n## Payload Segments\n",
      "\n" ++ segments_text p.segments ++ "\n\n\n## Hard-coded Values\n" ++
        p.metadata_dbg ++ "\n\n\n", ?_⟩
    simp only [document_payload, payload_fragment, String.append_assoc]
  exact ⟨key, by decide, key zero_total_payload "P" Direction.Tx⟩

theorem str_data_append (s t : String) : (s ++ t).data = s.data ++ t.data := by
  cases s
  cases t
  rfl

theorem strHead_append (s t : String) (c : Char) (h : strHead s = some c) :
    strHead (s ++ t) = some c := by
  unfold strHead at h ⊢
  rw [str_data_append]
  cases hd : s.data with
  | nil => rw [hd] at h; simp at h
  | cons a l => rw [hd] at h; simpa using h

theorem foldl_append_shift {α : Type} (g : α → String) (l : List α) :
    ∀ acc : String,
      List.foldl (fun a p => a ++ g p) acc l =
        acc ++ List.foldl (fun a p => a ++ g p) "" l := by
  induction l with
  | nil => intro acc; simp [String.append_empty]
  | cons p l ih =>
    intro acc
    simp only [List.foldl_cons]
    rw [ih (acc ++ g p), ih ("" ++ g p), String.empty_append,
      String.append_assoc]

theorem tx_links_head (pid : OpenPID) :
    tx_payloads_links pid = "" ∨
      strHead (tx_payloads_links pid) = some '\t' := by
  unfold tx_payloads_links
  cases pid.payloads_tx with
  | nil => exact Or.inl rfl
  | cons p l =>
    refine Or.inr ?_
    simp only [List.foldl_cons]
    rw [foldl_append_shift (fun p => tx_link_line p.1) l ("" ++ tx_link_line p.1),
      String.empty_append]
    exact strHead_append _ _ _
      (strHead_append _ _ _ (strHead_append _ _ _ (strHead_append _ _ _
        (strHead_append _ _ _ (by decide)))))

theorem rx_links_head (pid : OpenPID) :
    rx_payloads_links pid = "" ∨
      strHead (rx_payloads_links pid) = some '\t' := by
  unfold rx_payloads_links
  cases pid.payloads_rx with
  | nil => exact Or.inl rfl
  | cons p l =>
    refine Or.inr ?_
    simp only [List.foldl_cons]
    rw [foldl_append_shift (fun p => rx_link_line p.1) l ("" ++ rx_link_line p.1),
      String.empty_append]
    exact strHead_append _ _ _
      (strHead_append _ _ _ (strHead_append _ _ _ (strHead_append _ _ _
        (strHead_append _ _ _ (by decide)))))

theorem document_writes_head (pid : OpenPID) :
    ∀ w ∈ document_writes pid, strHead w.2 = some '#' := by
  intro w hw
  simp only [document_writes, List.mem_cons, List.not_mem_nil, or_false] at hw
  rcases hw with h | h | h | h
  · rw [h]; decide
  · rw [h]
    exact strHead_append _ _ _
      (strHead_append _ _ _ (strHead_append _ _ _ (strHead_append _ _ _
        (by decide))))
  · rw [h]
    exact strHead_append _ _ _
      (strHead_append _ _ _ (strHead_append _ _ _ (strHead_append _ _ _
        (by decide))))
  · rw [h]
    exact strHead_append _ _ _
      (strHead_append _ _ _ (strHead_append _ _ _ (strHead_append _ _ _
        (by decide))))

theorem ne_of_strHead {s t : String} (h : strHead s ≠ strHead t) : s ≠ t :=
  fun he => h (he ▸ rfl)

/-- Claim C10: the SUMMARY.md content written by `document` is the same fixed
constant for any two input specs, and none of the four files `document` writes
ever carries the accumulated tx or rx link lists (every written content starts
with `#`, while a link accumulator is either empty or starts with a tab). -/
theorem summary_constant_and_links_unwritten (pid₁ pid₂ : OpenPID) :
    (document_writes pid₁).head? = some ("src/SUMMARY.md", summary) ∧
    (document_writes pid₁).head? = (document_writes pid₂).head? ∧
    ∀ w ∈ document_writes pid₁,
      w.2 ≠ tx_payloads_links pid₁ ∧ w.2 ≠ rx_payloads_links pid₁ := by
  refine ⟨rfl, rfl, ?_⟩
  intro w hw
  have hhead : strHead w.2 = some '#' := document_writes_head pid₁ w hw
  constructor
  · refine ne_of_strHead ?_
    rcases tx_links_head pid₁ with h0 | ht
    · rw [h0, hhead]; decide
    · rw [ht, hhead]; decide
  · refine ne_of_strHead ?_
    rcases rx_links_head pid₁ with h0 | ht
    · rw [h0, hhead]; decide
    · rw [ht, hhead]; decide

/-- Claim C10 (witness): the statement instantiated at a concrete spec with one
tx payload. -/
theorem summary_constant_and_links_unwritten_witness :
    (document_writes examplePID).head? = some ("src/SUMMARY.md", summary) ∧
    (document_writes examplePID).head? = (document_writes examplePID).head? ∧
    ∀ w ∈ document_writes examplePID,
      w.2 ≠ tx_payloads_links examplePID ∧
        w.2 ≠ rx_payloads_links examplePID :=
  summary_constant_and_links_unwritten examplePID examplePID

end OpenPidDocgen
